import Mathlib

/-!
Shallow embedding of the ST7032i LCD driver (src/src/lib.rs).

The driver is a small state machine over six configuration fields plus an
I2C transport and a millisecond delay.  We model:

* the transport as an oracle `bus : Nat → Bool` giving the success of the
  n-th attempted bus write (the driver threads a write counter `k`);
* every observable effect as an `Event` (an attempted bus write with its
  address and frame bytes, or a blocking delay);
* a driver call as a function from the configuration state, the oracle and
  the write counter to a `Res`: the Rust `Result` outcome (`ok`), the updated
  state, the advanced counter and the list of events in order;
* the `assert!` calls in the bit-packed encoders as `Option`: `none` is a
  panic, `some` normal execution (`Res.ok = false` is a transport `Err`).
-/

namespace ST7032i

/-- ST7032i instruction set (source keeps the typo `Extented`). -/
inductive InstructionSet where
  | Normal
  | Extented
deriving DecidableEq, Repr

/-- Text moving direction (source keeps the typo `LeftToRigh`). -/
inductive Direction where
  | LeftToRigh
  | RightToLeft
deriving DecidableEq, Repr

/-- Fixed 7-bit device address (source constant `I2C_ADRESS`). -/
def I2C_ADRESS : Nat := 0x3e

/-- Configuration state carried by the `ST7032i` struct (transport and delay
capabilities are externalized into the oracle and the trace). -/
structure DriverState where
  entry : Direction
  lines : Nat
  scroll : Bool
  display : Bool
  cursor : Bool
  blink : Bool
deriving DecidableEq, Repr

/-- Observable effects: an attempted bus write (recorded whether or not the
transport reports success) and a blocking millisecond delay. -/
inductive Event where
  | write (addr : Nat) (bytes : List Nat)
  | delayMs (ms : Nat)
deriving DecidableEq, Repr

/-- Result of one driver call: Rust `Result` outcome, updated state, advanced
write counter, and the events emitted in order. -/
structure Res where
  ok : Bool
  state : DriverState
  k : Nat
  trace : List Event
deriving Repr

/-- Constructor `ST7032i::new`: pure, no bus traffic. -/
def new (lines : Nat) : DriverState :=
  { entry := Direction.RightToLeft, lines := lines, scroll := false,
    display := false, cursor := false, blink := false }

/-- Source `send_command`: one two-byte frame `[0x00, command]` at the fixed
address; on transport success a 1 ms delay follows, on failure the error
propagates (`?`) without the delay. -/
def send_command (s : DriverState) (bus : Nat → Bool) (k : Nat) (command : Nat) : Res :=
  if bus k then
    { ok := true, state := s, k := k + 1,
      trace := [Event.write I2C_ADRESS [0x00, command], Event.delayMs 1] }
  else
    { ok := false, state := s, k := k + 1,
      trace := [Event.write I2C_ADRESS [0x00, command]] }

/-- Source `send_entry_mode`: byte `0b00000100`, bit0 for scroll, bit1 for
LeftToRigh entry, derived from the current state. -/
def send_entry_mode (s : DriverState) (bus : Nat → Bool) (k : Nat) : Res :=
  let command := 0b00000100
  let command := if s.scroll then command ||| 0b00000001 else command
  let command := if s.entry = Direction.LeftToRigh then command ||| 0b00000010 else command
  send_command s bus k command

/-- Source `send_display_mode`: byte `0b00001000`, bit0 blink, bit1 cursor,
bit2 display, derived from the current state. -/
def send_display_mode (s : DriverState) (bus : Nat → Bool) (k : Nat) : Res :=
  let command := 0b00001000
  let command := if s.blink then command ||| 0b00000001 else command
  let command := if s.cursor then command ||| 0b00000010 else command
  let command := if s.display then command ||| 0b00000100 else command
  send_command s bus k command

/-- Source `send_function`: byte `0b00110000`; bit3 if `lines > 1`, else bit2
if double height; bit0 if the extended instruction set is selected. -/
def send_function (s : DriverState) (bus : Nat → Bool) (k : Nat)
    (is : InstructionSet) (lines : Nat) (dbl : Bool) : Res :=
  let command := 0b00110000
  let command := if lines > 1 then command ||| 0b00001000
    else if dbl then command ||| 0b00000100 else command
  let command := if is = InstructionSet.Extented then command ||| 0b00000001 else command
  send_command s bus k command

/-- Source `send_osc_config`: `assert!(freq < 8)` (panic modelled as `none`),
then byte `0b00010000 ||| freq`, bit3 if bias. -/
def send_osc_config (s : DriverState) (bus : Nat → Bool) (k : Nat)
    (bias : Bool) (freq : Nat) : Option Res :=
  if freq < 8 then
    let command := 0b00010000 ||| freq
    let command := if bias then command ||| 0b00001000 else command
    some (send_command s bus k command)
  else none

/-- Source `send_contrast`: `assert!(contrast < 16)`, then byte
`0b01110000 ||| contrast`. -/
def send_contrast (s : DriverState) (bus : Nat → Bool) (k : Nat)
    (contrast : Nat) : Option Res :=
  if contrast < 16 then some (send_command s bus k (0b01110000 ||| contrast))
  else none

/-- Source `send_booster_config`: `assert!(contrast_low < 4)`, then byte
`0b01010000 ||| contrast_low`, bit2 if booster on, bit3 if icon. -/
def send_booster_config (s : DriverState) (bus : Nat → Bool) (k : Nat)
    (bon : Bool) (icon : Bool) (contrast_low : Nat) : Option Res :=
  if contrast_low < 4 then
    let command := 0b01010000 ||| contrast_low
    let command := if bon then command ||| 0b00000100 else command
    let command := if icon then command ||| 0b00001000 else command
    some (send_command s bus k command)
  else none

/-- Source `send_follower_config`: `assert!(ratio < 8)`, then byte
`0b01100000 ||| ratio`, bit3 if follower on. -/
def send_follower_config (s : DriverState) (bus : Nat → Bool) (k : Nat)
    (fon : Bool) (ratio : Nat) : Option Res :=
  if ratio < 8 then
    let command := 0b01100000 ||| ratio
    let command := if fon then command ||| 0b00001000 else command
    some (send_command s bus k command)
  else none

/-- Source `on`: set the display flag first, then resend the display mode. -/
def on' (s : DriverState) (bus : Nat → Bool) (k : Nat) : Res :=
  send_display_mode { s with display := true } bus k

/-- Source `off`: clear the display flag first, then resend the display mode. -/
def off (s : DriverState) (bus : Nat → Bool) (k : Nat) : Res :=
  send_display_mode { s with display := false } bus k

/-- Appends a delay to a successful result; an `Err` short-circuits past the
delay, mirroring `self.send_x()?; self.delay.delay_ms(ms);`. -/
def then_delay (r : Res) (ms : Nat) : Res :=
  if r.ok then { r with trace := r.trace ++ [Event.delayMs ms] } else r

/-- Source `clear`: opcode `0b00000001` then a 2 ms settle delay. -/
def clear (s : DriverState) (bus : Nat → Bool) (k : Nat) : Res :=
  then_delay (send_command s bus k 0b00000001) 2

/-- Source `home`: opcode `0b00000010` then a 2 ms settle delay. -/
def home (s : DriverState) (bus : Nat → Bool) (k : Nat) : Res :=
  then_delay (send_command s bus k 0b00000010) 2

/-- Source `move_cursor`: DDRAM address command, `col | 0b10000000` for row 0,
`col | 0b11000000` otherwise; no flag mutation. -/
def move_cursor (s : DriverState) (bus : Nat → Bool) (k : Nat)
    (row col : Nat) : Res :=
  let command := match row with
    | 0 => col ||| 0b10000000
    | _ => col ||| 0b11000000
  send_command s bus k command

/-- Source `show_cursor`: set cursor flag, set blink flag from the argument,
resend the display mode. -/
def show_cursor (s : DriverState) (bus : Nat → Bool) (k : Nat) (blink : Bool) : Res :=
  send_display_mode { s with cursor := true, blink := blink } bus k

/-- Source `hide_cursor`: clear cursor and blink flags, resend the display mode. -/
def hide_cursor (s : DriverState) (bus : Nat → Bool) (k : Nat) : Res :=
  send_display_mode { s with cursor := false, blink := false } bus k

/-- Source `enable_scroll`: set scroll flag and entry direction, resend the
entry mode. -/
def enable_scroll (s : DriverState) (bus : Nat → Bool) (k : Nat) (entry : Direction) : Res :=
  send_entry_mode { s with scroll := true, entry := entry } bus k

/-- Source `disable_scroll`: clear only the scroll flag, resend the entry mode. -/
def disable_scroll (s : DriverState) (bus : Nat → Bool) (k : Nat) : Res :=
  send_entry_mode { s with scroll := false } bus k

/-- Source `shift_display`: `0b00011000`, plus `0b00000100` for LeftToRigh. -/
def shift_display (s : DriverState) (bus : Nat → Bool) (k : Nat) (dir : Direction) : Res :=
  let command := if dir = Direction.LeftToRigh then 0b00011000 ||| 0b00000100 else 0b00011000
  send_command s bus k command

/-- Source `shift_cursor`: `0b00010000`, plus `0b00000100` for LeftToRigh. -/
def shift_cursor (s : DriverState) (bus : Nat → Bool) (k : Nat) (dir : Direction) : Res :=
  let command := if dir = Direction.LeftToRigh then 0b00010000 ||| 0b00000100 else 0b00010000
  send_command s bus k command

/-- Sequencing of fallible steps with Rust `?` semantics: a panic (`none`)
propagates, an `Err` short-circuits keeping the trace so far, an `Ok` runs the
next step on the updated state and counter, concatenating traces. -/
def bindRes (a : Option Res) (f : DriverState → Nat → Option Res) : Option Res :=
  match a with
  | none => none
  | some r =>
    if r.ok then
      match f r.state r.k with
      | none => none
      | some r2 => some { r2 with trace := r.trace ++ r2.trace }
    else some r

/-- Source `init`: the power-up sequence.  The first function-set probe's
outcome is only inspected to pick the following delay (1 ms on `Ok`, 20 ms on
`Err`); execution proceeds regardless.  Every later step uses `?`. -/
def init (s : DriverState) (bus : Nat → Bool) (k : Nat) : Option Res :=
  let r0 := send_function s bus k InstructionSet.Normal 1 false
  let d0 := if r0.ok then Event.delayMs 1 else Event.delayMs 20
  let a := some { r0 with ok := true, trace := r0.trace ++ [d0] }
  let a := bindRes a fun s k => some (then_delay (send_function s bus k InstructionSet.Extented 1 false) 5)
  let a := bindRes a fun s k => some (then_delay (send_function s bus k InstructionSet.Extented 1 false) 5)
  let a := bindRes a fun s k => some (then_delay (send_function s bus k InstructionSet.Extented s.lines false) 5)
  let a := bindRes a fun s k => some (off s bus k)
  let a := bindRes a fun s k => send_osc_config s bus k true 0
  let a := bindRes a fun s k => send_contrast s bus k 0
  let a := bindRes a fun s k => send_booster_config s bus k true false 0
  let a := bindRes a fun s k => send_follower_config s bus k true 0
  let a := bindRes a fun s k => some (then_delay (send_entry_mode s bus k) 20)
  let a := bindRes a fun s k => some (on' s bus k)
  bindRes a fun s k => some (clear s bus k)

/-- Source `write_str` (`fmt::Write` impl): each input byte is framed as
`[0b01000000, byte]` and written individually; the transport result is
discarded (`.ok()`), and the method always returns `Ok(())`. -/
def write_str (s : DriverState) (bus : Nat → Bool) (k : Nat) : List Nat → Res
  | [] => { ok := true, state := s, k := k, trace := [] }
  | b :: rest =>
    let r := write_str s bus (k + 1) rest
    { r with trace := Event.write I2C_ADRESS [0b01000000, b] :: r.trace }

/-- Command payloads of a trace: the second byte of every command frame
(control byte `0x00`), in order. -/
def commandsOf (tr : List Event) : List Nat :=
  tr.filterMap fun e =>
    match e with
    | Event.write _ bytes =>
      match bytes with
      | [b0, b1] => if b0 = 0 then some b1 else none
      | _ => none
    | Event.delayMs _ => none

/-- A well-formed bus event: any delay, or a write to the fixed address of
exactly two bytes whose control byte is `0x00` (command) or `0x40` (data). -/
def goodEvent (e : Event) : Bool :=
  match e with
  | Event.write a bytes =>
    a = I2C_ADRESS && bytes.length = 2 &&
      (bytes.head? = some 0x00 || bytes.head? = some 0x40)
  | Event.delayMs _ => true

/-- Every event of the trace is well-formed. -/
def GoodTrace (tr : List Event) : Prop :=
  tr.all goodEvent = true

lemma send_command_state (s : DriverState) (bus : Nat → Bool) (k c : Nat) :
    (send_command s bus k c).state = s := by
  unfold send_command
  by_cases h : bus k <;> simp [h]

lemma send_command_ok (s : DriverState) (bus : Nat → Bool) (k c : Nat) :
    (send_command s bus k c).ok = bus k := by
  unfold send_command
  by_cases h : bus k <;> simp [h]

lemma send_command_k (s : DriverState) (bus : Nat → Bool) (k c : Nat) :
    (send_command s bus k c).k = k + 1 := by
  unfold send_command
  by_cases h : bus k <;> simp [h]

lemma commandsOf_send_command (s : DriverState) (bus : Nat → Bool) (k c : Nat) :
    commandsOf (send_command s bus k c).trace = [c] := by
  unfold send_command
  by_cases h : bus k <;> simp [h, commandsOf]

lemma commandsOf_send_display_mode (s : DriverState) (bus : Nat → Bool) (k : Nat) :
    commandsOf (send_display_mode s bus k).trace =
      [0b00001000 ||| (if s.blink then 1 else 0) ||| ((if s.cursor then 1 else 0) <<< 1) |||
        ((if s.display then 1 else 0) <<< 2)] := by
  unfold send_display_mode
  rw [commandsOf_send_command]
  cases hb : s.blink <;> cases hc : s.cursor <;> cases hd : s.display <;> simp [hb, hc, hd]

/-- C4: for all boolean combinations of the display, cursor and blink flags,
the display-mode byte sent equals `0b00001000 ||| blink ||| cursor <<< 1 |||
display <<< 2`, and it depends only on those three flags: any two states that
agree on them (whatever call order produced them) yield the same byte. -/
theorem display_mode_byte_formula (s s2 : DriverState) (bus bus2 : Nat → Bool) (k k2 : Nat)
    (hd : s2.display = s.display) (hc : s2.cursor = s.cursor) (hb : s2.blink = s.blink) :
    commandsOf (send_display_mode s bus k).trace =
      [0b00001000 ||| (if s.blink then 1 else 0) ||| ((if s.cursor then 1 else 0) <<< 1) |||
        ((if s.display then 1 else 0) <<< 2)] ∧
    commandsOf (send_display_mode s2 bus2 k2).trace =
      commandsOf (send_display_mode s bus k).trace := by
  refine ⟨commandsOf_send_display_mode s bus k, ?_⟩
  rw [commandsOf_send_display_mode, commandsOf_send_display_mode, hd, hc, hb]

/-- Witness for C4 at two concrete states agreeing on the three flags, with
concrete oracles and counters. -/
theorem display_mode_byte_formula_witness :
    commandsOf (send_display_mode (new 2) (fun _ => true) 0).trace = [0b00001000] ∧
    commandsOf (send_display_mode (new 3) (fun _ => false) 5).trace =
      commandsOf (send_display_mode (new 2) (fun _ => true) 0).trace := by
  have h := display_mode_byte_formula (new 2) (new 3) (fun _ => true) (fun _ => false) 0 5
    rfl rfl rfl
  refine ⟨?_, h.2⟩
  rw [h.1]
  decide

/-- C5: for every lines value, double-height flag and instruction-set tag,
the function-set byte is `0b00110000` OR bit3 iff `lines > 1`, else bit2 iff
`dbl`, OR bit0 iff the instruction set is extended; its high four bits always
equal `0b0011`. -/
theorem function_set_byte_formula (s : DriverState) (bus : Nat → Bool) (k : Nat)
    (is : InstructionSet) (lines : Nat) (dbl : Bool) :
    commandsOf (send_function s bus k is lines dbl).trace =
      [0b00110000 ||| (if lines > 1 then 0b00001000 else if dbl then 0b00000100 else 0) |||
        (if is = InstructionSet.Extented then 0b00000001 else 0)] ∧
    (0b00110000 ||| (if lines > 1 then 0b00001000 else if dbl then 0b00000100 else 0) |||
        (if is = InstructionSet.Extented then 0b00000001 else 0)) &&& 0b11110000
      = 0b00110000 := by
  constructor
  · unfold send_function
    rw [commandsOf_send_command]
    by_cases hl : lines > 1 <;> cases is <;> cases dbl <;> simp [hl]
  · by_cases hl : lines > 1 <;> cases is <;> cases dbl <;> simp [hl] <;> decide

/-- C2: toggling the display off and back on never alters the cursor and
blink flags; after `show_cursor true`, `off`, `on` the flags are still set and
the display-mode byte sent by `on` is `0b00001111`, carrying both flags. -/
theorem off_on_preserves_cursor_blink (s : DriverState) (bus : Nat → Bool) (k : Nat) (b : Bool) :
    (on' (off s bus k).state bus (off s bus k).k).state.cursor = s.cursor ∧
    (on' (off s bus k).state bus (off s bus k).k).state.blink = s.blink ∧
    (on' (off (show_cursor s bus k b).state bus (show_cursor s bus k b).k).state bus
        (off (show_cursor s bus k b).state bus (show_cursor s bus k b).k).k).state.cursor
      = true ∧
    (on' (off (show_cursor s bus k b).state bus (show_cursor s bus k b).k).state bus
        (off (show_cursor s bus k b).state bus (show_cursor s bus k b).k).k).state.blink
      = b ∧
    commandsOf (on' (off (show_cursor s bus k true).state bus (show_cursor s bus k true).k).state
        bus (off (show_cursor s bus k true).state bus (show_cursor s bus k true).k).k).trace
      = [0b00001111] := by
  simp [on', off, show_cursor, send_display_mode, send_command_state, commandsOf_send_command]

/-- C8: `enable_scroll LeftToRigh` then `disable_scroll` leaves the entry
direction unchanged (only the scroll flag clears), and the entry-mode byte
then sent is `0b00000110`: scroll bit0 clear, direction bit1 set. -/
theorem disable_scroll_preserves_entry (s : DriverState) (bus : Nat → Bool) (k : Nat) :
    (disable_scroll (enable_scroll s bus k Direction.LeftToRigh).state bus
        (enable_scroll s bus k Direction.LeftToRigh).k).state.entry = Direction.LeftToRigh ∧
    (disable_scroll (enable_scroll s bus k Direction.LeftToRigh).state bus
        (enable_scroll s bus k Direction.LeftToRigh).k).state.scroll = false ∧
    commandsOf (disable_scroll (enable_scroll s bus k Direction.LeftToRigh).state bus
        (enable_scroll s bus k Direction.LeftToRigh).k).trace = [0b00000110] ∧
    Nat.testBit 0b00000110 0 = false ∧ Nat.testBit 0b00000110 1 = true := by
  simp [enable_scroll, disable_scroll, send_entry_mode, send_command_state,
    commandsOf_send_command]
  decide

/-- C9: every flag-mutating operation stores the newly requested flag values
before the bus write: the resulting state equals the requested record update
whatever the transport outcome (the outcome is surfaced unchanged as `ok`),
so the flags track requested, not confirmed, hardware state. -/
theorem flags_track_requested_state (s : DriverState) (bus : Nat → Bool) (k : Nat)
    (b : Bool) (d : Direction) :
    (on' s bus k).state = { s with display := true } ∧ (on' s bus k).ok = bus k ∧
    (off s bus k).state = { s with display := false } ∧ (off s bus k).ok = bus k ∧
    (show_cursor s bus k b).state = { s with cursor := true, blink := b } ∧
    (show_cursor s bus k b).ok = bus k ∧
    (hide_cursor s bus k).state = { s with cursor := false, blink := false } ∧
    (hide_cursor s bus k).ok = bus k ∧
    (enable_scroll s bus k d).state = { s with scroll := true, entry := d } ∧
    (enable_scroll s bus k d).ok = bus k ∧
    (disable_scroll s bus k).state = { s with scroll := false } ∧
    (disable_scroll s bus k).ok = bus k := by
  simp [on', off, show_cursor, hide_cursor, enable_scroll, disable_scroll,
    send_display_mode, send_entry_mode, send_command_state, send_command_ok]

/-- C3: the asserting encoders panic (`none`) on the boundary inputs
contrast 16, ratio 8, frequency 8 and booster contrast-low 4; they do not
panic on 15, 7, 7, where the transmitted byte is the OR-packed opcode; and no
out-of-range value is ever silently masked into a byte (all map to `none`). -/
theorem encoder_range_asserts (s : DriverState) (bus : Nat → Bool) (k : Nat) :
    send_contrast s bus k 16 = none ∧
    send_follower_config s bus k true 8 = none ∧
    send_osc_config s bus k true 8 = none ∧
    send_booster_config s bus k true false 4 = none ∧
    send_contrast s bus k 15 = some (send_command s bus k (0b01110000 ||| 15)) ∧
    send_follower_config s bus k true 7
      = some (send_command s bus k ((0b01100000 ||| 7) ||| 0b00001000)) ∧
    send_osc_config s bus k true 7
      = some (send_command s bus k ((0b00010000 ||| 7) ||| 0b00001000)) ∧
    (∀ contrast, 16 ≤ contrast → send_contrast s bus k contrast = none) ∧
    (∀ fon ratio, 8 ≤ ratio → send_follower_config s bus k fon ratio = none) ∧
    (∀ bias freq, 8 ≤ freq → send_osc_config s bus k bias freq = none) ∧
    (∀ bon icon cl, 4 ≤ cl → send_booster_config s bus k bon icon cl = none) := by
  refine ⟨by simp [send_contrast], by simp [send_follower_config], by simp [send_osc_config],
    by simp [send_booster_config], by simp [send_contrast], by simp [send_follower_config],
    by simp [send_osc_config], ?_, ?_, ?_, ?_⟩
  · intro c hc
    simp [send_contrast, Nat.not_lt.mpr hc]
  · intro fon r hr
    simp [send_follower_config, Nat.not_lt.mpr hr]
  · intro bias f hf
    simp [send_osc_config, Nat.not_lt.mpr hf]
  · intro bon icon cl hcl
    simp [send_booster_config, Nat.not_lt.mpr hcl]

/-- Witness for C3: the out-of-range clauses applied at concrete inputs
20, 9, 9 and 5. -/
theorem encoder_range_asserts_witness :
    send_contrast (new 2) (fun _ => true) 0 20 = none ∧
    send_follower_config (new 2) (fun _ => true) 0 false 9 = none ∧
    send_osc_config (new 2) (fun _ => true) 0 false 9 = none ∧
    send_booster_config (new 2) (fun _ => true) 0 false true 5 = none := by
  obtain ⟨-, -, -, -, -, -, -, h8, h9, h10, h11⟩ :=
    encoder_range_asserts (new 2) (fun _ => true) 0
  exact ⟨h8 20 (by norm_num), h9 false 9 (by norm_num), h10 false 9 (by norm_num),
    h11 false true 5 (by norm_num)⟩

/-- C6: the text-write path frames every input byte as `[0b01000000, byte]`,
attempts one transport write per byte whatever the oracle answers (the trace
is exactly one data frame per byte, in order), and always returns success
with the configuration state untouched. -/
theorem write_str_swallows_errors (s : DriverState) (bus : Nat → Bool) (k : Nat)
    (str : List Nat) :
    (write_str s bus k str).ok = true ∧
    (write_str s bus k str).state = s ∧
    (write_str s bus k str).trace
      = str.map fun b => Event.write I2C_ADRESS [0b01000000, b] := by
  induction str generalizing k with
  | nil => simp [write_str]
  | cons b rest ih =>
    obtain ⟨h1, h2, h3⟩ := ih (k + 1)
    exact ⟨by simp [write_str, h1], by simp [write_str, h2], by simp [write_str, h3]⟩

/-- C1 counterexample: with `lines = 2` and an always-successful transport,
the command sequence produced by `init` does not begin with a byte whose bit3
and bit0 are set: the first command byte is `0b00110000` (the Normal,
one-line probe), with both bits clear. -/
theorem init_first_command_lacks_claimed_bits :
    ((init (new 2) (fun _ => true) 0).map fun r => (commandsOf r.trace).head?)
      = some (some 0b00110000) ∧
    Nat.testBit 0b00110000 3 = false ∧ Nat.testBit 0b00110000 0 = false := by
  exact ⟨rfl, rfl, rfl⟩

/-- C1 (amended): with `lines = 2` and a successful transport, `init` emits
the command bytes `[0x30, 0x31, 0x31, 0x39, 0x08, 0x18, 0x70, 0x54, 0x68,
0x04, 0x0C, 0x01]`: the sequence begins with a function-set byte (high bits
`0b0011`) whose bit3 and bit0 are clear, the fourth command is the
function-set byte with bit3 (multi-line) and bit0 (extended) set, the
sequence ends with the clear opcode `0x01`, and the final state is the
constructed state with only the display flag raised (display true, cursor,
blink and scroll false, entry RightToLeft). -/
theorem init_lines2_command_sequence :
    ((init (new 2) (fun _ => true) 0).map fun r => (commandsOf r.trace, r.state))
      = some ([0x30, 0x31, 0x31, 0x39, 0x08, 0x18, 0x70, 0x54, 0x68, 0x04, 0x0C, 0x01],
          { new 2 with display := true }) ∧
    0x30 &&& 0b11110000 = 0b00110000 ∧
    Nat.testBit 0x30 3 = false ∧ Nat.testBit 0x30 0 = false ∧
    Nat.testBit 0x39 3 = true ∧ Nat.testBit 0x39 0 = true := by
  exact ⟨rfl, rfl, rfl, rfl, rfl, rfl⟩

lemma bindRes_extends_front (p : List Event) (a : Option Res)
    (f : DriverState → Nat → Option Res)
    (hf : ∀ s k, ∃ r2, f s k = some r2)
    (ha : ∃ r, a = some r ∧ ∃ t, r.trace = p ++ t) :
    ∃ r', bindRes a f = some r' ∧ ∃ t, r'.trace = p ++ t := by
  obtain ⟨r, rfl, t, ht⟩ := ha
  by_cases hok : r.ok
  · obtain ⟨r2, h2⟩ := hf r.state r.k
    refine ⟨{ r2 with trace := r.trace ++ r2.trace }, by simp [bindRes, hok, h2],
      t ++ r2.trace, ?_⟩
    simp [ht, List.append_assoc]
  · exact ⟨r, by simp [bindRes, hok], t, ht⟩

/-- C7: the outcome of the very first function-set probe in `init` only
selects the following delay — on transport success the probe's own 1 ms
post-write delay is followed by the 1 ms branch delay, on failure a single
20 ms delay — and the failure is not fatal: in both cases `init` proceeds to
the second function-set write. -/
theorem init_first_probe_bimodal_delay (s : DriverState) (bus : Nat → Bool) (k : Nat) :
    ∃ r t, init s bus k = some r ∧
      r.trace = Event.write I2C_ADRESS [0x00, 0b00110000] ::
        ((if bus k then [Event.delayMs 1, Event.delayMs 1] else [Event.delayMs 20]) ++
          Event.write I2C_ADRESS [0x00, 0b00110001] :: t) := by
  have key : ∃ r', init s bus k = some r' ∧ ∃ t, r'.trace =
      (Event.write I2C_ADRESS [0x00, 0b00110000] ::
        ((if bus k then [Event.delayMs 1, Event.delayMs 1] else [Event.delayMs 20]) ++
          [Event.write I2C_ADRESS [0x00, 0b00110001]])) ++ t := by
    simp only [init]
    refine bindRes_extends_front _ _ _ (fun s k => ⟨_, rfl⟩) ?_
    refine bindRes_extends_front _ _ _ (fun s k => ⟨_, rfl⟩) ?_
    refine bindRes_extends_front _ _ _ (fun s k => ⟨_, rfl⟩) ?_
    refine bindRes_extends_front _ _ _ (fun s k => ⟨_, rfl⟩) ?_
    refine bindRes_extends_front _ _ _ (fun s k => ⟨_, rfl⟩) ?_
    refine bindRes_extends_front _ _ _ (fun s k => ⟨_, rfl⟩) ?_
    refine bindRes_extends_front _ _ _ (fun s k => ⟨_, rfl⟩) ?_
    refine bindRes_extends_front _ _ _ (fun s k => ⟨_, rfl⟩) ?_
    refine bindRes_extends_front _ _ _ (fun s k => ⟨_, rfl⟩) ?_
    refine bindRes_extends_front _ _ _ (fun s k => ⟨_, rfl⟩) ?_
    by_cases hbk : bus k <;> by_cases hbk1 : bus (k + 1) <;>
      simp [bindRes, send_function, send_command, then_delay, hbk, hbk1]
  obtain ⟨r, hr, t, ht⟩ := key
  refine ⟨r, t, hr, ?_⟩
  rw [ht]
  simp [List.append_assoc]

lemma goodTrace_append {t1 t2 : List Event} (h1 : GoodTrace t1) (h2 : GoodTrace t2) :
    GoodTrace (t1 ++ t2) := by
  simp only [GoodTrace, List.all_append, Bool.and_eq_true] at *
  exact ⟨h1, h2⟩

lemma send_command_good (s : DriverState) (bus : Nat → Bool) (k c : Nat) :
    GoodTrace (send_command s bus k c).trace := by
  unfold send_command
  by_cases h : bus k <;> simp [h] <;> rfl

lemma then_delay_good {r : Res} {ms : Nat} (h : GoodTrace r.trace) :
    GoodTrace (then_delay r ms).trace := by
  unfold then_delay
  by_cases hok : r.ok
  · simp only [hok, if_true]
    exact goodTrace_append h (by rfl)
  · simpa [hok] using h

lemma of_some_eq {x r : Res} (h : some x = some r) (hx : GoodTrace x.trace) :
    GoodTrace r.trace := by
  cases h
  exact hx

lemma send_osc_config_good {s : DriverState} {bus : Nat → Bool} {k : Nat}
    {bias : Bool} {freq : Nat} {r : Res}
    (h : send_osc_config s bus k bias freq = some r) : GoodTrace r.trace := by
  unfold send_osc_config at h
  by_cases hf : freq < 8
  · simp only [hf, if_true] at h
    exact of_some_eq h (send_command_good _ _ _ _)
  · simp [hf] at h

lemma send_contrast_good {s : DriverState} {bus : Nat → Bool} {k contrast : Nat} {r : Res}
    (h : send_contrast s bus k contrast = some r) : GoodTrace r.trace := by
  unfold send_contrast at h
  by_cases hc : contrast < 16
  · simp only [hc, if_true] at h
    exact of_some_eq h (send_command_good _ _ _ _)
  · simp [hc] at h

lemma send_booster_config_good {s : DriverState} {bus : Nat → Bool} {k : Nat}
    {bon icon : Bool} {cl : Nat} {r : Res}
    (h : send_booster_config s bus k bon icon cl = some r) : GoodTrace r.trace := by
  unfold send_booster_config at h
  by_cases hc : cl < 4
  · simp only [hc, if_true] at h
    exact of_some_eq h (send_command_good _ _ _ _)
  · simp [hc] at h

lemma send_follower_config_good {s : DriverState} {bus : Nat → Bool} {k : Nat}
    {fon : Bool} {ratio : Nat} {r : Res}
    (h : send_follower_config s bus k fon ratio = some r) : GoodTrace r.trace := by
  unfold send_follower_config at h
  by_cases hr : ratio < 8
  · simp only [hr, if_true] at h
    exact of_some_eq h (send_command_good _ _ _ _)
  · simp [hr] at h

lemma bindRes_good (a : Option Res) (f : DriverState → Nat → Option Res)
    (ha : ∀ r, a = some r → GoodTrace r.trace)
    (hf : ∀ s k r2, f s k = some r2 → GoodTrace r2.trace) :
    ∀ r', bindRes a f = some r' → GoodTrace r'.trace := by
  intro r' h
  cases a with
  | none => simp [bindRes] at h
  | some r =>
    by_cases hok : r.ok
    · cases h2 : f r.state r.k with
      | none => simp [bindRes, hok, h2] at h
      | some r2 =>
        simp only [bindRes, hok, h2, if_true] at h
        cases h
        exact goodTrace_append (ha r rfl) (hf _ _ r2 h2)
    · simp only [bindRes, hok, if_false, Bool.false_eq_true] at h
      obtain rfl := Option.some.inj h
      exact ha _ rfl

lemma write_str_good (s : DriverState) (bus : Nat → Bool) (k : Nat) (str : List Nat) :
    GoodTrace (write_str s bus k str).trace := by
  induction str generalizing k with
  | nil => rfl
  | cons b rest ih =>
    simp only [write_str, GoodTrace, List.all_cons, Bool.and_eq_true]
    exact ⟨rfl, ih (k + 1)⟩

lemma init_good (s : DriverState) (bus : Nat → Bool) (k : Nat) :
    ∀ r, init s bus k = some r → GoodTrace r.trace := by
  simp only [init]
  refine bindRes_good _ _ ?_ (fun s k r2 h2 => of_some_eq h2 (then_delay_good (send_command_good _ _ _ _)))
  refine bindRes_good _ _ ?_ (fun s k r2 h2 => of_some_eq h2 (send_command_good _ _ _ _))
  refine bindRes_good _ _ ?_ (fun s k r2 h2 => of_some_eq h2 (then_delay_good (send_command_good _ _ _ _)))
  refine bindRes_good _ _ ?_ (fun s k r2 h2 => send_follower_config_good h2)
  refine bindRes_good _ _ ?_ (fun s k r2 h2 => send_booster_config_good h2)
  refine bindRes_good _ _ ?_ (fun s k r2 h2 => send_contrast_good h2)
  refine bindRes_good _ _ ?_ (fun s k r2 h2 => send_osc_config_good h2)
  refine bindRes_good _ _ ?_ (fun s k r2 h2 => of_some_eq h2 (send_command_good _ _ _ _))
  refine bindRes_good _ _ ?_ (fun s k r2 h2 => of_some_eq h2 (then_delay_good (send_command_good _ _ _ _)))
  refine bindRes_good _ _ ?_ (fun s k r2 h2 => of_some_eq h2 (then_delay_good (send_command_good _ _ _ _)))
  refine bindRes_good _ _ ?_ (fun s k r2 h2 => of_some_eq h2 (then_delay_good (send_command_good _ _ _ _)))
  intro r h
  cases h
  refine goodTrace_append (send_command_good _ _ _ _) ?_
  by_cases hok : (send_function s bus k InstructionSet.Normal 1 false).ok <;> simp [hok] <;> rfl

/-- C10: every bus write issued by any driver operation — including every
step of `init` and the per-byte text writes — is addressed to the fixed
device address `0x3e` and is exactly a two-byte frame whose control byte is
`0x00` for commands or `0x40` for character data. -/
theorem all_writes_well_framed (s : DriverState) (bus : Nat → Bool) (k : Nat)
    (b dbl : Bool) (d : Direction) (row col c ls : Nat) (str : List Nat)
    (is : InstructionSet) :
    GoodTrace (send_command s bus k c).trace ∧
    GoodTrace (on' s bus k).trace ∧
    GoodTrace (off s bus k).trace ∧
    GoodTrace (clear s bus k).trace ∧
    GoodTrace (home s bus k).trace ∧
    GoodTrace (move_cursor s bus k row col).trace ∧
    GoodTrace (show_cursor s bus k b).trace ∧
    GoodTrace (hide_cursor s bus k).trace ∧
    GoodTrace (enable_scroll s bus k d).trace ∧
    GoodTrace (disable_scroll s bus k).trace ∧
    GoodTrace (shift_display s bus k d).trace ∧
    GoodTrace (shift_cursor s bus k d).trace ∧
    GoodTrace (send_function s bus k is ls dbl).trace ∧
    GoodTrace (write_str s bus k str).trace ∧
    ((init s bus k).all fun r => r.trace.all goodEvent) = true := by
  refine ⟨send_command_good _ _ _ _, send_command_good _ _ _ _, send_command_good _ _ _ _,
    then_delay_good (send_command_good _ _ _ _), then_delay_good (send_command_good _ _ _ _),
    send_command_good _ _ _ _, send_command_good _ _ _ _, send_command_good _ _ _ _,
    send_command_good _ _ _ _, send_command_good _ _ _ _, send_command_good _ _ _ _,
    send_command_good _ _ _ _, send_command_good _ _ _ _, write_str_good _ _ _ _, ?_⟩
  cases hi : init s bus k with
  | none => rfl
  | some r => exact init_good s bus k r hi

end ST7032i
